import Mathlib

/-!
Verification of the Watchdog Validator core engine (`watchdog_validator.py`).

The engine validates a pandas DataFrame against registered column rules,
splits it into clean and failed (quarantined) subsets, and produces a
summary. Rows are addressed by their position in the DataFrame (the
default RangeIndex created by all supported ingestion paths), so the row
identifier of row `i` is `i` itself.

The per-rule evaluation is delegated by the source to the external
great_expectations library; rule semantics below follow the specification
(section 4.2), which documents those semantics. Everything downstream of
the per-rule violating-index lists (`run_validation`'s aggregation loop,
`_quarantine_data`, `_generate_summary`, the session state machine) is
translated directly from `src/watchdog_validator.py`.
-/

namespace Watchdog

/-- A cell value: number, text, or null (pandas NaN/None). -/
inductive Value where
  | null : Value
  | num (q : ℚ) : Value
  | str (s : String) : Value
deriving DecidableEq, Repr

/-- A row: association list from column name to value. -/
abbrev Row := List (String × Value)

/-- Look up a column in a row; a column absent from the row reads as null. -/
def getVal (row : Row) (c : String) : Value :=
  (row.lookup c).getD Value.null

/-- A dataset: named columns plus an ordered sequence of rows.  Row `i`
has row identifier `i` (pandas default RangeIndex). -/
structure DataFrame where
  cols : List String
  rows : List Row
deriving DecidableEq, Repr

/-- The closed set of rule kinds the five `add_*` methods can register:
`expect_column_values_to_not_be_null`, `expect_column_values_to_be_between`,
`expect_column_values_to_be_unique`, `expect_column_values_to_be_in_set`. -/
inductive Rule where
  | notNull (column : String) : Rule
  | range (column : String) (minVal maxVal : Option ℚ) : Rule
  | unique (column : String) : Rule
  | memberOf (column : String) (allowed : List Value) : Rule
deriving DecidableEq, Repr

/-- The column a rule is bound to. -/
def Rule.column : Rule → String
  | .notNull c => c
  | .range c _ _ => c
  | .unique c => c
  | .memberOf c _ => c

/-- The row at position `i` (out-of-range positions cannot arise in
`run_validation`, whose index lists are drawn from the dataset itself). -/
def rowAt (df : DataFrame) (i : ℕ) : Row :=
  df.rows.getD i []

/-- All values of one column, in row order. -/
def colValues (df : DataFrame) (c : String) : List Value :=
  df.rows.map (fun r => getVal r c)

/-- Number of occurrences of value `v` in column `c`. -/
def countVal (df : DataFrame) (c : String) (v : Value) : ℕ :=
  (colValues df c).count v

/-- Modelled from the spec: per-rule, per-row violation semantics of the
great_expectations checks invoked by the source (the library itself is not
part of the repository).  Spec section 4.2: `NotNull` flags null values;
`Range` flags non-null values outside the configured bounds and non-numeric
values; `Unique` flags every row whose non-null value occurs more than once
in the column, nulls exempt; `MemberOf` flags values (null included) outside
the allowed set. -/
def violatesRow (df : DataFrame) (r : Rule) (row : Row) : Bool :=
  match r with
  | .notNull c => decide (getVal row c = Value.null)
  | .range c lo hi =>
    match getVal row c with
    | .null => false
    | .num q =>
      (match lo with
       | some m => decide (q < m)
       | none => false) ||
      (match hi with
       | some m => decide (m < q)
       | none => false)
    | .str _ => true
  | .unique c =>
    if getVal row c = Value.null then false
    else decide (1 < countVal df c (getVal row c))
  | .memberOf _ allowed => !(decide (getVal row (Rule.column r) ∈ allowed))

/-- The `unexpected_index_list` of one rule: the row identifiers whose rows
violate it, in ascending order. -/
def violationIds (df : DataFrame) (r : Rule) : List ℕ :=
  (List.range df.rows.length).filter (fun i => violatesRow df r (rowAt df i))

/-- `_format_failure_message`: the fixed message per expectation type.  The
source's fallback branch (title-cased expectation name) is unreachable for
the four expectation types the `add_*` methods can produce. -/
def formatFailureMessage (r : Rule) : String :=
  match r with
  | .notNull c => c ++ " is null"
  | .range c _ _ => c ++ " out of range"
  | .unique c => c ++ " is not unique"
  | .memberOf c _ => c ++ " not in allowed set"

/-- The aggregation loop of `run_validation` (building `self.bad_indices`):
for each result in registration order, if the expectation failed, add its
unexpected indices to the bad set. -/
def badIndices (df : DataFrame) (rules : List Rule) : Finset ℕ :=
  rules.foldl
    (fun s r =>
      if (violationIds df r).isEmpty then s else s ∪ (violationIds df r).toFinset)
    ∅

/-- The aggregation loop of `run_validation` (building
`self.failure_details[i]`): for each rule in registration order whose
violation list contains `i`, append that rule's message. -/
def failureDetails (df : DataFrame) (rules : List Rule) (i : ℕ) : List String :=
  rules.foldl
    (fun acc r =>
      if i ∈ violationIds df r then acc ++ [formatFailureMessage r] else acc)
    []

/-- `'; '.join(self.failure_details.get(x, ['Unknown']))`: the source's dict
holds a key only once a message was appended, so a missing key is exactly an
empty message list here. -/
def joinReason (msgs : List String) : String :=
  String.intercalate "; " (if msgs = [] then ["Unknown"] else msgs)

/-- Row identifiers selected into the failed frame
(`self.df.iloc[list(self.bad_indices)]`; Python set iteration order is
unspecified, modelled in ascending order — no claim depends on row order). -/
def failedIds (df : DataFrame) (bad : Finset ℕ) : List ℕ :=
  (List.range df.rows.length).filter (fun i => decide (i ∈ bad))

/-- Row identifiers kept in the clean frame
(`self.df.drop(index=list(self.bad_indices))`, original order preserved). -/
def cleanIds (df : DataFrame) (bad : Finset ℕ) : List ℕ :=
  (List.range df.rows.length).filter (fun i => decide (i ∉ bad))

/-- `_quarantine_data`, failed side: if `bad_indices` is truthy (non-empty),
select the bad rows and append a `Failure_Reason` column mapped from each
row's index label; otherwise `pd.DataFrame()` — an empty frame with NO
columns. -/
def quarantineFailed (df : DataFrame) (bad : Finset ℕ) (details : ℕ → List String) :
    DataFrame :=
  if bad.Nonempty then
    { cols := df.cols ++ ["Failure_Reason"],
      rows := (failedIds df bad).map
        (fun i => rowAt df i ++ [("Failure_Reason", Value.str (joinReason (details i)))]) }
  else { cols := [], rows := [] }

/-- `_quarantine_data`, clean side: drop the bad index labels. -/
def quarantineClean (df : DataFrame) (bad : Finset ℕ) : DataFrame :=
  { cols := df.cols,
    rows := (cleanIds df bad).map (fun i => rowAt df i) }

/-- `self.results.success`: the great_expectations aggregate success flag —
every registered expectation succeeded, i.e. produced no unexpected rows. -/
def resultsSuccess (df : DataFrame) (rules : List Rule) : Bool :=
  rules.all (fun r => (violationIds df r).isEmpty)

/-- The summary dict built by `_generate_summary` (the embedded `results`
object is omitted; it is determined by `df` and `rules`). -/
structure Summary where
  success : Bool
  total_rows : ℕ
  clean_rows : ℕ
  failed_rows : ℕ
  pass_rate : ℚ
deriving DecidableEq, Repr

/-- `_generate_summary`. -/
def generateSummary (df : DataFrame) (rules : List Rule)
    (dfClean dfFailed : DataFrame) : Summary :=
  { success := resultsSuccess df rules
    total_rows := df.rows.length
    clean_rows := dfClean.rows.length
    failed_rows := dfFailed.rows.length
    pass_rate :=
      if 0 < df.rows.length then
        (dfClean.rows.length : ℚ) / (df.rows.length : ℚ) * 100
      else 0 }

/-- A `WatchdogValidator` instance: the bound DataFrame, whether
`self.validator` has been initialized (done lazily by the first `add_*`
call), the registered rules, and the result fields filled in by
`run_validation`. -/
structure Session where
  df : DataFrame
  validatorInitialized : Bool
  rules : List Rule
  df_clean : Option DataFrame
  df_failed : Option DataFrame
  summary : Option Summary
deriving DecidableEq, Repr

/-- `WatchdogValidator.__init__`. -/
def mkSession (df : DataFrame) : Session :=
  { df := df
    validatorInitialized := false
    rules := []
    df_clean := none
    df_failed := none
    summary := none }

/-- Common body of the `add_*` methods: initialize the validator if needed,
then append one expectation. -/
def addRule (s : Session) (r : Rule) : Session :=
  { s with validatorInitialized := true, rules := s.rules ++ [r] }

/-- Register a list of rules in order. -/
def addRules (s : Session) (rs : List Rule) : Session :=
  rs.foldl addRule s

/-- `add_price_validation`: registers a two-sided range only when
`max_value is not None and max_value > 0`; otherwise only the minimum
bound. -/
def priceRule (column : String) (minValue : ℚ) (maxValue : Option ℚ) : Rule :=
  match maxValue with
  | some m =>
    if 0 < m then Rule.range column (some minValue) (some m)
    else Rule.range column (some minValue) none
  | none => Rule.range column (some minValue) none

/-- `add_price_validation` as a session operation. -/
def add_price_validation (s : Session) (column : String) (minValue : ℚ)
    (maxValue : Option ℚ) : Session :=
  addRule s (priceRule column minValue maxValue)

/-- `add_not_null_validation`. -/
def add_not_null_validation (s : Session) (column : String) : Session :=
  addRule s (Rule.notNull column)

/-- `add_unique_validation`. -/
def add_unique_validation (s : Session) (column : String) : Session :=
  addRule s (Rule.unique column)

/-- `add_set_validation`. -/
def add_set_validation (s : Session) (column : String) (allowed : List Value) :
    Session :=
  addRule s (Rule.memberOf column allowed)

/-- `add_custom_range_validation`. -/
def add_custom_range_validation (s : Session) (column : String)
    (minValue maxValue : Option ℚ) : Session :=
  addRule s (Rule.range column minValue maxValue)

/-- The message of the exception `run_validation` raises when no validator
has been configured. -/
def noRulesMsg : String :=
  "No validation rules configured. Add rules before running validation."

/-- `run_validation`: raise if `self.validator is None`; otherwise evaluate,
aggregate, quarantine, and return the summary, storing the results on the
instance. -/
def run_validation (s : Session) : Except String (Summary × Session) :=
  if s.validatorInitialized then
    let bad := badIndices s.df s.rules
    let dfClean := quarantineClean s.df bad
    let dfFailed := quarantineFailed s.df bad (failureDetails s.df s.rules)
    let sum := generateSummary s.df s.rules dfClean dfFailed
    .ok (sum,
      { s with df_clean := some dfClean, df_failed := some dfFailed, summary := some sum })
  else .error noRulesMsg

/-- Modelled from the spec: the column-existence and parameter-sanity checks
that the source delegates to the external great_expectations library (absent
from the repository).  Per the spec, registration fails with
`ConfigurationError` when the rule's column is missing from the dataset
schema, a `Range` rule has neither bound, or a `MemberOf` rule has an empty
allowed set. -/
def checkRuleConfig (df : DataFrame) (r : Rule) : Except String Unit :=
  if r.column ∈ df.cols then
    match r with
    | .range _ none none =>
      .error "ConfigurationError: Range rule needs at least one bound"
    | .memberOf _ [] =>
      .error "ConfigurationError: MemberOf rule needs a non-empty allowed set"
    | _ => .ok ()
  else .error "ConfigurationError: column is absent from the dataset schema"

/-- Rule registration guarded by the spec-modelled configuration check. -/
def addRuleChecked (s : Session) (r : Rule) : Except String Session :=
  match checkRuleConfig s.df r with
  | .error e => .error e
  | .ok _ => .ok (addRule s r)

/-- The summary a session's run yields, when it succeeds. -/
def runSummary (s : Session) : Option Summary :=
  (run_validation s).toOption.map Prod.fst

/-! ### Helper lemmas -/

theorem mem_violationIds {df : DataFrame} {r : Rule} {i : ℕ} :
    i ∈ violationIds df r ↔
      i < df.rows.length ∧ violatesRow df r (rowAt df i) = true := by
  simp [violationIds, List.mem_filter, List.mem_range]

theorem lt_of_mem_violationIds {df : DataFrame} {r : Rule} {i : ℕ}
    (h : i ∈ violationIds df r) : i < df.rows.length :=
  (mem_violationIds.mp h).1

theorem mem_badIndices {df : DataFrame} {rules : List Rule} {i : ℕ} :
    i ∈ badIndices df rules ↔ ∃ r ∈ rules, i ∈ violationIds df r := by
  have key : ∀ (rs : List Rule) (s : Finset ℕ),
      i ∈ rs.foldl
          (fun s r =>
            if (violationIds df r).isEmpty then s
            else s ∪ (violationIds df r).toFinset) s ↔
        i ∈ s ∨ ∃ r ∈ rs, i ∈ violationIds df r := by
    intro rs
    induction rs with
    | nil => intro s; simp
    | cons r rs ih =>
      intro s
      rw [List.foldl_cons, ih]
      by_cases h : (violationIds df r).isEmpty
      · have hnil : violationIds df r = [] := List.isEmpty_iff.mp h
        simp [h, hnil]
      · simp [h, Finset.mem_union, List.mem_toFinset]
        tauto
  simpa [badIndices] using key rules ∅

theorem lt_of_mem_badIndices {df : DataFrame} {rules : List Rule} {i : ℕ}
    (h : i ∈ badIndices df rules) : i < df.rows.length := by
  obtain ⟨r, _, hv⟩ := mem_badIndices.mp h
  exact lt_of_mem_violationIds hv

theorem failureDetails_eq (df : DataFrame) (rules : List Rule) (i : ℕ) :
    failureDetails df rules i =
      (rules.filter (fun r => decide (i ∈ violationIds df r))).map
        formatFailureMessage := by
  have key : ∀ (rs : List Rule) (acc : List String),
      rs.foldl
          (fun acc r =>
            if i ∈ violationIds df r then acc ++ [formatFailureMessage r]
            else acc) acc =
        acc ++ (rs.filter (fun r => decide (i ∈ violationIds df r))).map
          formatFailureMessage := by
    intro rs
    induction rs with
    | nil => intro acc; simp
    | cons r rs ih =>
      intro acc
      by_cases h : i ∈ violationIds df r
      · simp [h, ih]
      · simp [h, ih]
  simpa [failureDetails] using key rules []

theorem mem_cleanIds {df : DataFrame} {bad : Finset ℕ} {i : ℕ} :
    i ∈ cleanIds df bad ↔ i < df.rows.length ∧ i ∉ bad := by
  simp [cleanIds, List.mem_filter, List.mem_range]

theorem mem_failedIds {df : DataFrame} {bad : Finset ℕ} {i : ℕ} :
    i ∈ failedIds df bad ↔ i < df.rows.length ∧ i ∈ bad := by
  simp [failedIds, List.mem_filter, List.mem_range]

theorem length_filter_mem_compl (l : List ℕ) (s : Finset ℕ) :
    (l.filter (fun i => decide (i ∉ s))).length
      + (l.filter (fun i => decide (i ∈ s))).length = l.length := by
  induction l with
  | nil => simp
  | cons a l ih =>
    simp only [decide_not] at ih ⊢
    by_cases h : a ∈ s <;> simp [List.filter_cons, h] <;> omega

theorem ids_length_partition (df : DataFrame) (bad : Finset ℕ) :
    (cleanIds df bad).length + (failedIds df bad).length = df.rows.length := by
  have h := length_filter_mem_compl (List.range df.rows.length) bad
  simpa [cleanIds, failedIds] using h

theorem quarantineFailed_rows_length (df : DataFrame) (bad : Finset ℕ)
    (details : ℕ → List String) :
    (quarantineFailed df bad details).rows.length = (failedIds df bad).length := by
  by_cases h : bad.Nonempty
  · simp [quarantineFailed, h]
  · have hb : bad = ∅ := Finset.not_nonempty_iff_eq_empty.mp h
    simp [quarantineFailed, h, failedIds, hb]

theorem quarantineClean_rows_length (df : DataFrame) (bad : Finset ℕ) :
    (quarantineClean df bad).rows.length = (cleanIds df bad).length := by
  simp [quarantineClean]

theorem failedIds_eq_nil_iff (df : DataFrame) (rules : List Rule) :
    failedIds df (badIndices df rules) = [] ↔ badIndices df rules = ∅ := by
  constructor
  · intro h
    rw [Finset.eq_empty_iff_forall_not_mem]
    intro i hi
    have hlt := lt_of_mem_badIndices hi
    have : i ∈ failedIds df (badIndices df rules) := mem_failedIds.mpr ⟨hlt, hi⟩
    simp [h] at this
  · intro h
    rw [List.eq_nil_iff_forall_not_mem]
    intro i hi
    have := (mem_failedIds.mp hi).2
    simp [h] at this

theorem badIndices_empty_iff (df : DataFrame) (rules : List Rule) :
    badIndices df rules = ∅ ↔ resultsSuccess df rules = true := by
  rw [Finset.eq_empty_iff_forall_not_mem]
  simp only [resultsSuccess, List.all_eq_true, List.isEmpty_iff,
    List.eq_nil_iff_forall_not_mem, mem_badIndices]
  constructor
  · intro h r hr i hi
    exact h i ⟨r, hr, hi⟩
  · intro h i ⟨r, hr, hi⟩
    exact h r hr i hi

theorem validatorInitialized_addRules (s : Session) (rs : List Rule) :
    (addRules s rs).validatorInitialized
      = (s.validatorInitialized || !rs.isEmpty) := by
  induction rs generalizing s with
  | nil => simp [addRules]
  | cons r rs ih =>
    have : addRules s (r :: rs) = addRules (addRule s r) rs := rfl
    rw [this, ih]
    simp [addRule]

theorem two_le_count_aux {α : Type} [DecidableEq α] :
    ∀ (l : List α) (v : α) (i j : ℕ) (hi : i < l.length) (hj : j < l.length),
      i ≠ j → l.get ⟨i, hi⟩ = v → l.get ⟨j, hj⟩ = v → 2 ≤ l.count v := by
  intro l
  induction l with
  | nil => intro v i j hi; simp at hi
  | cons a l ih =>
    intro v i j hi hj hij h1 h2
    match i, j with
    | 0, 0 => exact absurd rfl hij
    | 0, j + 1 =>
      have ha : a = v := h1
      subst ha
      have hv : a ∈ l := by
        rw [← h2]
        exact l.get_mem _ _
      have hcount : 1 ≤ l.count a := List.one_le_count_iff.mpr hv
      have hcons : (a :: l).count a = l.count a + 1 := by
        simp [List.count_cons]
      omega
    | i + 1, 0 =>
      have ha : a = v := h2
      subst ha
      have hv : a ∈ l := by
        rw [← h1]
        exact l.get_mem _ _
      have hcount : 1 ≤ l.count a := List.one_le_count_iff.mpr hv
      have hcons : (a :: l).count a = l.count a + 1 := by
        simp [List.count_cons]
      omega
    | i + 1, j + 1 =>
      have hrec := ih v i j (Nat.lt_of_succ_lt_succ hi) (Nat.lt_of_succ_lt_succ hj)
        (fun h => hij (by omega)) h1 h2
      rw [List.count_cons]
      omega

theorem rowAt_eq_get (df : DataFrame) (i : ℕ) (hi : i < df.rows.length) :
    rowAt df i = df.rows.get ⟨i, hi⟩ := by
  rw [rowAt, List.getD_eq_getElem df.rows [] hi, List.get_eq_getElem]

theorem colValues_get (df : DataFrame) (c : String) (i : ℕ)
    (hi : i < df.rows.length) :
    (colValues df c).get ⟨i, by simpa [colValues] using hi⟩
      = getVal (rowAt df i) c := by
  rw [rowAt_eq_get df i hi]
  simp [colValues, List.get_eq_getElem, List.getElem_map]

/-! ### Claim theorems -/

/-- C1: after `run()` the clean and failed subsets partition the dataset by
row identifier: the union of their identifier sets is the identifier set of
the dataset, the two are disjoint, and the total row count equals the clean
count plus the failed count. -/
theorem clean_failed_partition (df : DataFrame) (rules : List Rule) :
    (cleanIds df (badIndices df rules)).toFinset
        ∪ (failedIds df (badIndices df rules)).toFinset
      = Finset.range df.rows.length
    ∧ Disjoint (cleanIds df (badIndices df rules)).toFinset
        (failedIds df (badIndices df rules)).toFinset
    ∧ df.rows.length =
        (quarantineClean df (badIndices df rules)).rows.length
          + (quarantineFailed df (badIndices df rules)
              (failureDetails df rules)).rows.length := by
  refine ⟨?_, ?_, ?_⟩
  · ext i
    by_cases h : i ∈ badIndices df rules <;>
      simp [mem_cleanIds, mem_failedIds, Finset.mem_range, h]
  · rw [Finset.disjoint_left]
    intro i hi hj
    rw [List.mem_toFinset, mem_cleanIds] at hi
    rw [List.mem_toFinset, mem_failedIds] at hj
    exact hi.2 hj.2
  · rw [quarantineClean_rows_length, quarantineFailed_rows_length,
      ids_length_partition]

/-- A one-column dataset whose single row passes its rule: used to exhibit
the shape of the failed frame when nothing is flagged. -/
def c3df : DataFrame := { cols := ["Price"], rows := [[("Price", Value.num 1)]] }

/-- A rule set under which `c3df` has no violating rows. -/
def c3rules : List Rule := [Rule.range "Price" (some 0) none]

/-- C3 counterexample: on a dataset with schema `["Price"]` and a rule with
zero violations, `bad_ids` is empty, yet the failed frame the code builds
(`pd.DataFrame()`) has NO columns — it does not carry the dataset schema
plus the `failure_reason` column. -/
theorem failed_schema_cex :
    badIndices c3df c3rules = ∅
    ∧ (quarantineFailed c3df (badIndices c3df c3rules)
        (failureDetails c3df c3rules)).cols
      ≠ c3df.cols ++ ["Failure_Reason"] := by
  constructor
  · decide
  · decide

/-- C3 (amended): whenever `run()` finds no violating rows, the failed
subset is `pd.DataFrame()` — an empty frame with an empty column list,
carrying neither the dataset schema nor the `failure_reason` column. -/
theorem failed_empty_no_schema (df : DataFrame) (rules : List Rule)
    (h : badIndices df rules = ∅) :
    quarantineFailed df (badIndices df rules) (failureDetails df rules)
      = { cols := [], rows := [] } := by
  rw [h]
  simp [quarantineFailed]

/-- C3 witness: the amended statement at the concrete no-violation input. -/
theorem failed_empty_no_schema_witness :
    badIndices c3df c3rules = ∅
    ∧ quarantineFailed c3df (badIndices c3df c3rules)
        (failureDetails c3df c3rules) = { cols := [], rows := [] } :=
  ⟨by decide, failed_empty_no_schema c3df c3rules (by decide)⟩

/-- C4: `run_validation` on a freshly constructed session (no `add_*` call,
so `self.validator is None`) raises; after registering at least one rule it
returns a result — even when no rule flags any row. -/
theorem run_requires_rules (df : DataFrame) (rules : List Rule) :
    (rules = [] →
      run_validation (addRules (mkSession df) rules) = .error noRulesMsg)
    ∧ (rules ≠ [] →
      ∃ p, run_validation (addRules (mkSession df) rules) = .ok p) := by
  constructor
  · intro h
    subst h
    simp [addRules, run_validation, mkSession, noRulesMsg]
  · intro h
    have hinit : (addRules (mkSession df) rules).validatorInitialized = true := by
      rw [validatorInitialized_addRules]
      simp [mkSession, List.isEmpty_iff, h]
    simp [run_validation, hinit]

/-- An all-clean one-row dataset for the C4 witness. -/
def c4df : DataFrame := { cols := ["Price"], rows := [[("Price", Value.num 3)]] }

/-- C4 witness: a fresh session errors; the same session with one registered
rule and zero violations runs successfully. -/
theorem run_requires_rules_witness :
    run_validation (addRules (mkSession c4df) []) = .error noRulesMsg
    ∧ ∃ p, run_validation (addRules (mkSession c4df) [Rule.notNull "Price"])
        = .ok p :=
  ⟨(run_requires_rules c4df []).1 rfl,
   (run_requires_rules c4df [Rule.notNull "Price"]).2 (by decide)⟩

/-- C5: each failed row's `failure_reason` is its accumulated messages — one
fixed message per violated rule, in registration order — joined with `"; "`,
falling back to `"Unknown"` for a bad row with no recorded message; and the
failed frame annotates each quarantined row with exactly that string. -/
theorem failure_reason_messages (df : DataFrame) (rules : List Rule) (i : ℕ) :
    failureDetails df rules i =
      (rules.filter (fun r => decide (i ∈ violationIds df r))).map
        formatFailureMessage
    ∧ joinReason (failureDetails df rules i) =
        (if failureDetails df rules i = [] then "Unknown"
         else String.intercalate "; " (failureDetails df rules i))
    ∧ (quarantineFailed df (badIndices df rules) (failureDetails df rules)).rows
        = (failedIds df (badIndices df rules)).map
            (fun j => rowAt df j ++
              [("Failure_Reason",
                Value.str (joinReason (failureDetails df rules j)))]) := by
  refine ⟨failureDetails_eq df rules i, ?_, ?_⟩
  · by_cases h : failureDetails df rules i = []
    · simp only [joinReason, h, if_pos]
      decide
    · simp [joinReason, h]
  · by_cases h : (badIndices df rules).Nonempty
    · simp [quarantineFailed, h]
    · have hb : badIndices df rules = ∅ := Finset.not_nonempty_iff_eq_empty.mp h
      simp [quarantineFailed, h, failedIds, hb]

/-- C6 (spec-modelled): registering a rule whose column is absent from the
dataset schema, a `Range` rule with neither bound, or a `MemberOf` rule with
an empty allowed set is rejected with a `ConfigurationError`, never silently
accepted. -/
theorem invalid_config_rejected (s : Session) (r : Rule)
    (h : r.column ∉ s.df.cols
      ∨ (∃ c, r = Rule.range c none none)
      ∨ (∃ c, r = Rule.memberOf c [])) :
    ∃ e, addRuleChecked s r = .error e := by
  rcases h with h | ⟨c, rfl⟩ | ⟨c, rfl⟩
  · exact ⟨"ConfigurationError: column is absent from the dataset schema",
      by simp [addRuleChecked, checkRuleConfig, h]⟩
  · by_cases hc : (Rule.range c none none).column ∈ s.df.cols
    · exact ⟨"ConfigurationError: Range rule needs at least one bound",
        by simp [addRuleChecked, checkRuleConfig, hc]⟩
    · exact ⟨"ConfigurationError: column is absent from the dataset schema",
        by simp [addRuleChecked, checkRuleConfig, hc]⟩
  · by_cases hc : (Rule.memberOf c []).column ∈ s.df.cols
    · exact ⟨"ConfigurationError: MemberOf rule needs a non-empty allowed set",
        by simp [addRuleChecked, checkRuleConfig, hc]⟩
    · exact ⟨"ConfigurationError: column is absent from the dataset schema",
        by simp [addRuleChecked, checkRuleConfig, hc]⟩

/-- A schema without the column `Quantity`, for the C6 witness. -/
def c6df : DataFrame := { cols := ["Price"], rows := [] }

/-- C6 witness: a rule on a column missing from the schema is rejected. -/
theorem invalid_config_rejected_witness :
    ∃ e, addRuleChecked (mkSession c6df) (Rule.notNull "Quantity") = .error e :=
  invalid_config_rejected (mkSession c6df) (Rule.notNull "Quantity")
    (Or.inl (by decide))

/-- C7: for a fixed dataset, registering one more rule never removes a row
identifier from the bad set: a row in the failed subset stays failed, and a
row clean under the extended rule set was already clean before. -/
theorem bad_indices_monotone (df : DataFrame) (rules : List Rule) (r : Rule)
    (i : ℕ) :
    (i ∈ badIndices df rules → i ∈ badIndices df (rules ++ [r]))
    ∧ (i ∈ failedIds df (badIndices df rules) →
        i ∈ failedIds df (badIndices df (rules ++ [r])))
    ∧ (i ∈ cleanIds df (badIndices df (rules ++ [r])) →
        i ∈ cleanIds df (badIndices df rules)) := by
  have hmono : i ∈ badIndices df rules → i ∈ badIndices df (rules ++ [r]) := by
    intro h
    rw [mem_badIndices] at h ⊢
    obtain ⟨r', hr', hi⟩ := h
    exact ⟨r', by simp [hr'], hi⟩
  refine ⟨hmono, ?_, ?_⟩
  · intro h
    rw [mem_failedIds] at h ⊢
    exact ⟨h.1, hmono h.2⟩
  · intro h
    rw [mem_cleanIds] at h ⊢
    exact ⟨h.1, fun hm => h.2 (hmono hm)⟩

/-- A one-row dataset whose row violates a NotNull rule, for the C7
witness. -/
def c7df : DataFrame := { cols := ["Q"], rows := [[("Q", Value.null)]] }

/-- C7 witness: row 0, failed under one rule, is still failed after a second
rule is registered. -/
theorem bad_indices_monotone_witness :
    0 ∈ badIndices c7df [Rule.notNull "Q"]
    ∧ 0 ∈ badIndices c7df ([Rule.notNull "Q"] ++ [Rule.unique "Q"]) :=
  ⟨by decide,
   (bad_indices_monotone c7df [Rule.notNull "Q"] (Rule.unique "Q") 0).1
     (by decide)⟩

/-- C10: `add_price_validation` applies an upper bound only when `max_value`
is not `None` and strictly positive; for `None`, zero, or negative
`max_value` the registered rule carries only the minimum bound, so a row
whose value meets the minimum is never flagged — however large (in
particular, even when it exceeds `max_value`). -/
theorem price_validation_max_ignored (column : String) (minValue : ℚ)
    (maxValue : Option ℚ) :
    ((maxValue = none ∨ ∃ m, maxValue = some m ∧ m ≤ 0) →
      priceRule column minValue maxValue = Rule.range column (some minValue) none
      ∧ ∀ (df : DataFrame) (row : Row) (q : ℚ),
          getVal row column = Value.num q → minValue ≤ q →
          violatesRow df (priceRule column minValue maxValue) row = false)
    ∧ (∀ m, maxValue = some m → 0 < m →
        priceRule column minValue maxValue
          = Rule.range column (some minValue) (some m)) := by
  constructor
  · intro h
    have hr : priceRule column minValue maxValue
        = Rule.range column (some minValue) none := by
      rcases h with rfl | ⟨m, rfl, hm⟩
      · rfl
      · simp [priceRule, not_lt.mpr hm]
    refine ⟨hr, ?_⟩
    intro df row q hq hmin
    rw [hr]
    simp [violatesRow, hq, not_lt.mpr hmin]
  · intro m hm hpos
    subst hm
    simp [priceRule, hpos]

/-- C10 witness: with `max_value = -5` only the minimum bound 0 is
registered, and a row with value 10 (far above `max_value`) is not
flagged. -/
theorem price_validation_max_ignored_witness :
    priceRule "Price" 0 (some (-5)) = Rule.range "Price" (some 0) none
    ∧ violatesRow { cols := ["Price"], rows := [] }
        (priceRule "Price" 0 (some (-5))) [("Price", Value.num 10)] = false :=
  ⟨((price_validation_max_ignored "Price" 0 (some (-5))).1
      (Or.inr ⟨-5, rfl, by norm_num⟩)).1,
   ((price_validation_max_ignored "Price" 0 (some (-5))).1
      (Or.inr ⟨-5, rfl, by norm_num⟩)).2
     { cols := ["Price"], rows := [] } [("Price", Value.num 10)] 10 rfl
     (by norm_num)⟩

/-- Arithmetic core of the summary bounds, over abstract counts. -/
theorem summary_arith (n cl fl : ℕ) (pr : ℚ) (hpart : cl + fl = n)
    (hpr : pr = if 0 < n then (cl : ℚ) / (n : ℚ) * 100 else 0) :
    0 ≤ pr ∧ pr ≤ 100 ∧ (n ≠ 0 → (pr = 100 ↔ fl = 0)) := by
  subst hpr
  by_cases h0 : 0 < n
  · rw [if_pos h0]
    have hcl : cl ≤ n := by omega
    have hclQ : (cl : ℚ) ≤ (n : ℚ) := by exact_mod_cast hcl
    have hnQ : (0 : ℚ) < (n : ℚ) := by exact_mod_cast h0
    have hne : ((n : ℚ)) ≠ 0 := ne_of_gt hnQ
    refine ⟨by positivity, ?_, ?_⟩
    · have hdiv : (cl : ℚ) / (n : ℚ) ≤ 1 := (div_le_one hnQ).mpr hclQ
      calc (cl : ℚ) / (n : ℚ) * 100 ≤ 1 * 100 :=
            mul_le_mul_of_nonneg_right hdiv (by norm_num)
        _ = 100 := by norm_num
    · intro _
      constructor
      · intro hpr
        have h100 : (cl : ℚ) / (n : ℚ) * 100 = 1 * 100 := by rw [hpr]; norm_num
        have h1 : (cl : ℚ) / (n : ℚ) = 1 := mul_right_cancel₀ (by norm_num) h100
        have h2 : (cl : ℚ) = (n : ℚ) := (div_eq_one_iff_eq hne).mp h1
        have h3 : cl = n := by exact_mod_cast h2
        omega
      · intro hf
        have h3 : cl = n := by omega
        rw [h3, div_self hne]
        norm_num
  · rw [if_neg h0]
    exact ⟨le_refl 0, by norm_num, fun hne => absurd (Nat.pos_of_ne_zero hne) h0⟩

/-- C2 (amended): every summary produced by `run_validation` has
`0 ≤ pass_rate ≤ 100`; for a NON-EMPTY dataset, `pass_rate = 100` iff the
failed subset is empty; and the success flag is true iff the failed subset
is empty.  (On an empty dataset the divide-by-zero guard makes `pass_rate`
0 even though `failed` is empty, so the unrestricted iff fails.) -/
theorem summary_bounds (s : Session) (sum : Summary) (s2 : Session)
    (h : run_validation s = .ok (sum, s2)) :
    0 ≤ sum.pass_rate ∧ sum.pass_rate ≤ 100
    ∧ (sum.total_rows ≠ 0 → (sum.pass_rate = 100 ↔ sum.failed_rows = 0))
    ∧ (sum.success = true ↔ sum.failed_rows = 0) := by
  by_cases hv : s.validatorInitialized = true
  swap
  · simp [run_validation, hv] at h
  simp only [run_validation, hv, if_true] at h
  rw [Except.ok.injEq, Prod.mk.injEq] at h
  obtain ⟨hsum, _⟩ := h
  subst hsum
  have hclean := quarantineClean_rows_length s.df (badIndices s.df s.rules)
  have hfail := quarantineFailed_rows_length s.df (badIndices s.df s.rules)
    (failureDetails s.df s.rules)
  have hpart := ids_length_partition s.df (badIndices s.df s.rules)
  have hfliff : (failedIds s.df (badIndices s.df s.rules)).length = 0
      ↔ resultsSuccess s.df s.rules = true := by
    rw [List.length_eq_zero, failedIds_eq_nil_iff, badIndices_empty_iff]
  have harith := summary_arith s.df.rows.length
    (cleanIds s.df (badIndices s.df s.rules)).length
    (failedIds s.df (badIndices s.df s.rules)).length
    (if 0 < s.df.rows.length then
      ((cleanIds s.df (badIndices s.df s.rules)).length : ℚ)
        / (s.df.rows.length : ℚ) * 100
     else 0)
    hpart rfl
  simp only [generateSummary, hclean, hfail]
  exact ⟨harith.1, harith.2.1, harith.2.2, hfliff.symm⟩

/-- An empty dataset bound to one rule: the input on which the unrestricted
pass-rate iff of C2 fails. -/
def c2df : DataFrame := { cols := ["Price"], rows := [] }

/-- The session for the C2 counterexample. -/
def c2session : Session := add_not_null_validation (mkSession c2df) "Price"

/-- C2 counterexample: on the empty dataset the failed subset is empty yet
`pass_rate` is 0, not 100 — "pass_rate equals 100 iff the failed subset is
empty" is false as stated. -/
theorem pass_rate_iff_cex :
    ¬ (∀ (s : Session) (sum : Summary), runSummary s = some sum →
        (sum.pass_rate = 100 ↔ sum.failed_rows = 0)) := by
  intro hall
  have h := hall c2session
    { success := true, total_rows := 0, clean_rows := 0, failed_rows := 0,
      pass_rate := 0 }
    (by decide)
  have h0 : (0 : ℚ) = 100 := h.mpr rfl
  norm_num at h0

/-- A two-row dataset with one null, for the C2 witness. -/
def w2df : DataFrame :=
  { cols := ["Price"], rows := [[("Price", Value.null)], [("Price", Value.num 2)]] }

/-- The C2 witness session. -/
def w2session : Session := add_not_null_validation (mkSession w2df) "Price"

/-- Fallback value used only to extract a run's result as a total value. -/
def fallbackPair : Summary × Session :=
  ({ success := true, total_rows := 0, clean_rows := 0, failed_rows := 0,
     pass_rate := 0 },
   mkSession { cols := [], rows := [] })

/-- The C2 witness run result. -/
def w2pair : Summary × Session := (run_validation w2session).toOption.getD fallbackPair

/-- C2 witness: the amended bounds at a concrete two-row run with one
failure. -/
theorem summary_bounds_witness :
    0 ≤ w2pair.1.pass_rate ∧ w2pair.1.pass_rate ≤ 100
    ∧ (w2pair.1.pass_rate = 100 ↔ w2pair.1.failed_rows = 0)
    ∧ (w2pair.1.success = true ↔ w2pair.1.failed_rows = 0) := by
  have h := summary_bounds w2session w2pair.1 w2pair.2 (by rfl)
  exact ⟨h.1, h.2.1, h.2.2.1 (by decide), h.2.2.2⟩

/-- C8: under a `Unique` rule, a row whose checked value is null is never
flagged by that rule alone; and any two distinct rows sharing a non-null
value are BOTH flagged (all occurrences of a duplicated value, not just
second-and-later ones). -/
theorem unique_rule_semantics (df : DataFrame) (c : String) :
    (∀ i, getVal (rowAt df i) c = Value.null →
      i ∉ violationIds df (Rule.unique c))
    ∧ (∀ i j, i < df.rows.length → j < df.rows.length → i ≠ j →
        getVal (rowAt df i) c = getVal (rowAt df j) c →
        getVal (rowAt df i) c ≠ Value.null →
        i ∈ violationIds df (Rule.unique c)
          ∧ j ∈ violationIds df (Rule.unique c)) := by
  constructor
  · intro i hnull hmem
    have h := (mem_violationIds.mp hmem).2
    simp [violatesRow, hnull] at h
  · intro i j hi hj hij heq hnn
    have hleni : i < (colValues df c).length := by simpa [colValues] using hi
    have hlenj : j < (colValues df c).length := by simpa [colValues] using hj
    have hgi : (colValues df c).get ⟨i, hleni⟩ = getVal (rowAt df i) c :=
      colValues_get df c i hi
    have hgj : (colValues df c).get ⟨j, hlenj⟩ = getVal (rowAt df i) c := by
      rw [colValues_get df c j hj]
      exact heq.symm
    have hcount : 2 ≤ (colValues df c).count (getVal (rowAt df i) c) :=
      two_le_count_aux (colValues df c) (getVal (rowAt df i) c) i j hleni hlenj
        hij hgi hgj
    have hvi : violatesRow df (Rule.unique c) (rowAt df i) = true := by
      simp only [violatesRow, if_neg hnn, decide_eq_true_eq]
      show 1 < (colValues df c).count (getVal (rowAt df i) c)
      omega
    have hnnj : ¬ getVal (rowAt df j) c = Value.null := by
      rw [← heq]
      exact hnn
    have hvj : violatesRow df (Rule.unique c) (rowAt df j) = true := by
      simp only [violatesRow, if_neg hnnj, decide_eq_true_eq]
      show 1 < (colValues df c).count (getVal (rowAt df j) c)
      rw [← heq]
      omega
    exact ⟨mem_violationIds.mpr ⟨hi, hvi⟩, mem_violationIds.mpr ⟨hj, hvj⟩⟩

/-- Null row plus a duplicated value, for the C8 witness. -/
def c8df : DataFrame :=
  { cols := ["ID"],
    rows := [[("ID", Value.null)], [("ID", Value.num 2)], [("ID", Value.num 2)]] }

/-- C8 witness: the null row 0 is not flagged; the duplicated rows 1 and 2
are both flagged. -/
theorem unique_rule_semantics_witness :
    0 ∉ violationIds c8df (Rule.unique "ID")
    ∧ 1 ∈ violationIds c8df (Rule.unique "ID")
    ∧ 2 ∈ violationIds c8df (Rule.unique "ID") :=
  ⟨(unique_rule_semantics c8df "ID").1 0 (by decide),
   ((unique_rule_semantics c8df "ID").2 1 2 (by decide) (by decide) (by decide)
      (by decide) (by decide)).1,
   ((unique_rule_semantics c8df "ID").2 1 2 (by decide) (by decide) (by decide)
      (by decide) (by decide)).2⟩

/-- C9: a second `run()` on the session returned by a successful run, with
the same registered rules, returns the identical summary and leaves the
session (its stored clean frame, failed frame, and summary included)
identical. -/
theorem run_validation_idempotent (s : Session) (p : Summary × Session)
    (h : run_validation s = .ok p) :
    run_validation p.2 = .ok p := by
  by_cases hv : s.validatorInitialized = true
  · simp only [run_validation, hv, if_true] at h
    rw [Except.ok.injEq] at h
    subst h
    simp only [run_validation]
    rw [if_pos]
    trivial
  · simp [run_validation, hv] at h

/-- A dataset with one failing and one passing row, for the C9 witness. -/
def c9df : DataFrame :=
  { cols := ["Price"],
    rows := [[("Price", Value.num (-10))], [("Price", Value.num 5)]] }

/-- The C9 witness session. -/
def c9session : Session := add_price_validation (mkSession c9df) "Price" 0 none

/-- The C9 witness run result. -/
def c9pair : Summary × Session := (run_validation c9session).toOption.getD fallbackPair

/-- C9 witness: re-running the concrete session returned by the first run
reproduces that run's result exactly. -/
theorem run_validation_idempotent_witness :
    run_validation c9pair.2 = .ok c9pair :=
  run_validation_idempotent c9session c9pair (by rfl)

end Watchdog
